import Mathlib

set_option maxHeartbeats 1000000
set_option maxRecDepth 4096

/-!
Shallow embedding of the DMX512 frame-encoding and output-scheduling subsystem
of the esp8266_artnet_dmx512 firmware, together with proofs about the claims
of its specification.

Conventions used throughout:
* machine integers (`uint8_t`, `uint16_t`, `size_t`, `unsigned long`) are
  modelled as `Nat`, with an explicit `% 256` (resp. other moduli) exactly
  where the C code truncates;
* byte arrays handed around through pointers are modelled as functions
  `Nat → Nat` giving the byte at each index, a null pointer as `none` of an
  `Option`, and a function whose result is `none` marks a null-pointer
  dereference;
* time (`millis()`) is passed in explicitly as a `Nat` argument;
* the two `float` rate computations are exact at the inputs considered, so
  they are modelled over `ℚ`.
-/

namespace DmxI2s

/-- Mark-Before-Break buffer size, set in the `DmxI2s` constructor
(dmx_i2s.cpp: `mbbSize = superSafeTiming ? 10 : 1`). -/
def mbbSize (superSafeTiming : Bool) : Nat :=
  if superSafeTiming then 10 else 1

/-- Space-For-Break buffer size, set in the `DmxI2s` constructor
(dmx_i2s.cpp: `sfbSize = superSafeTiming ? 2 : 1`). -/
def sfbSize (superSafeTiming : Bool) : Nat :=
  if superSafeTiming then 2 else 1

/-- The Mark-After-Break word, set in `DmxI2s::initPacket` step 4
(`packet.mark_after_break = (uint16_t)0b000001110`). -/
def mark_after_break : Nat := 0b000001110

/-- `DmxI2s::flipByte` (dmx_i2s.cpp lines 92-105): reverse the bit order of a
byte by swapping adjacent bits, then adjacent bit pairs, then the two nibbles.
The final `% 256` models the conversion of the `int`-typed expression
`(c >> 4) | (c << 4)` back to the `uint8_t` return type. -/
def flipByte (c : Nat) : Nat :=
  let c1 := ((c >>> 1) &&& 0b01010101) ||| ((c <<< 1) &&& 0b10101010)
  let c2 := ((c1 >>> 2) &&& 0b00110011) ||| ((c1 <<< 2) &&& 0b11001100)
  ((c2 >>> 4) ||| (c2 <<< 4)) % 256

/-- Reference bit-reversal permutation of an 8-bit byte: bit `i` of the result
is bit `7 - i` of the argument. Stated independently of `flipByte` so that
agreement between the two is meaningful. -/
def bitRev8 (c : Nat) : Nat :=
  (List.range 8).foldl (fun acc i => acc + (if c.testBit i then 2 ^ (7 - i) else 0)) 0

/-- The 16-bit word built for channel byte `i` inside the loop of
`DmxI2s::sendDmxData` (dmx_i2s.cpp lines 123-134): the bit-reversed channel
byte in the high byte, framing bits in the low byte; the last channel gets
all-ones stop bits, every other channel a trailing 0 start bit.
(When `channelsToSend = 0` the loop never runs, so the `Nat` truncated
subtraction in `channelsToSend - 1` is only ever used with
`channelsToSend ≥ 1`, where it agrees with the C `uint16_t` subtraction.) -/
def dmxWord (d : Nat → Nat) (channelsToSend i : Nat) : Nat :=
  (flipByte (d i) <<< 8) |||
    (if i = channelsToSend - 1 then 0b0000000011111111 else 0b0000000011111110)

/-- Contents of the `packet.dmx_bytes` array after the writes in
`DmxI2s::sendDmxData` steps 3-4: the start-code word at index 0 followed by
one word per channel. -/
def dmxBytes (d : Nat → Nat) (channelsToSend : Nat) : List Nat :=
  0b0000000011111110 :: (List.range channelsToSend).map (dmxWord d channelsToSend)

/-- The contiguous transmission buffer assembled in `DmxI2s::sendDmxData`
steps 5-7: Mark-Before-Break words, Space-For-Break words, the
Mark-After-Break word, then the start code and channel words. -/
def i2sPacketBuffer (s : Bool) (d : Nat → Nat) (length maxChannels : Nat) : List Nat :=
  let channelsToSend := min length maxChannels
  List.replicate (mbbSize s) 0xFFFF ++ List.replicate (sfbSize s) 0x0000 ++
    [mark_after_break] ++ dmxBytes d channelsToSend

end DmxI2s

namespace DmxI2s

/-- Mutable state of a `DmxI2s` encoder relevant to sending:
`dmxBytesAlloc` is the element count of the `packet.dmx_bytes` allocation
(`none` models the null pointer the constructor leaves behind), and
`packetCounter` / `lastPacketTime` are the statistics fields. -/
structure I2sState where
  dmxBytesAlloc : Option Nat
  packetCounter : Nat
  lastPacketTime : Nat
deriving DecidableEq, Repr

/-- Observable outcome of one `DmxI2s::sendDmxData` call: the updated encoder
state, the largest index written into `packet.dmx_bytes` (index 0 is written
by the start-code store, index `i + 1` by loop iteration `i`), the contiguous
buffer assembled for the peripheral, and the count passed as the second
argument of `i2s_write_buffer` (each I2S frame carries two 16-bit words). -/
structure I2sSendResult where
  state : I2sState
  maxWriteIndex : Nat
  buffer : List Nat
  i2sFrames : Nat
deriving DecidableEq, Repr

/-- State effect of `DmxI2s::sendDmxData` (dmx_i2s.cpp lines 108-172) once the
channel data pointer has been read successfully; `d` is the pointed-to byte
array, `now` the value of `millis()`. Matches the source step by step:
channel clamp, lazy allocation of `dmx_bytes` (only when the pointer is
null, sized `channelsToSend + 1`), buffer assembly, streaming of
`totalSize / 2` I2S frames, statistics update. -/
def sendCore (s : Bool) (st : I2sState) (d : Nat → Nat)
    (length maxChannels now : Nat) : I2sSendResult :=
  let channelsToSend := min length maxChannels
  let alloc := match st.dmxBytesAlloc with
    | none => channelsToSend + 1
    | some a => a
  let totalSize := mbbSize s + sfbSize s + 1 + channelsToSend + 1
  { state :=
      { dmxBytesAlloc := some alloc
        packetCounter := st.packetCounter + 1
        lastPacketTime := if 1000 < now - st.lastPacketTime then now else st.lastPacketTime }
    maxWriteIndex := channelsToSend
    buffer := i2sPacketBuffer s d length maxChannels
    i2sFrames := totalSize / 2 }

/-- `DmxI2s::sendDmxData` with pointer semantics: `data = none` is a null
pointer. The function contains no null/zero validation; `data[i]` is read
only inside the channel loop, so a null pointer crashes (modelled as `none`)
exactly when `min length maxChannels > 0`. -/
def sendDmxData (s : Bool) (st : I2sState) (data : Option (Nat → Nat))
    (length maxChannels now : Nat) : Option I2sSendResult :=
  match data with
  | some d => some (sendCore s st d length maxChannels now)
  | none =>
    if min length maxChannels = 0 then
      some (sendCore s st (fun _ => 0) length maxChannels now)
    else
      none

end DmxI2s

namespace DmxUart

/-- Mutable state of a `DmxUart` encoder relevant to sending statistics. -/
structure UartState where
  packetCounter : Nat
  lastPacketTime : Nat
deriving DecidableEq, Repr

/-- `DmxUart::sendDmxData` (dmx_uart.cpp lines 52-110): the returned list is
the exact byte sequence handed to `dmxSerial->write` (start code 0 followed
by the clamped channel bytes). The guard
`if (!data || length == 0 || maxChannels == 0) return;` makes a null data
pointer or zero length / zero maxChannels a silent no-op. -/
def sendDmxData (st : UartState) (data : Option (Nat → Nat))
    (length maxChannels now : Nat) : UartState × List Nat :=
  match data with
  | none => (st, [])
  | some d =>
    if length = 0 ∨ maxChannels = 0 then (st, [])
    else
      let channelsToSend := min length maxChannels
      ({ packetCounter := st.packetCounter + 1
         lastPacketTime := if 1000 < now - st.lastPacketTime then now else st.lastPacketTime },
       0 :: (List.range channelsToSend).map d)

/-- `DmxUart::getPacketsPerSecond` (dmx_uart.cpp lines 113-139), exact over
`ℚ`: computes `1000 * packetCounter / elapsed` and resets when some time has
passed and at least one packet was sent; otherwise returns `0` without
resetting. (`DmxI2s::getPacketsPerSecond` is textually identical.) -/
def getPacketsPerSecond (st : UartState) (now : Nat) : UartState × ℚ :=
  let elapsed := now - st.lastPacketTime
  if 0 < elapsed ∧ 0 < st.packetCounter then
    ({ packetCounter := 0, lastPacketTime := now },
     1000 * (st.packetCounter : ℚ) / (elapsed : ℚ))
  else
    (st, 0)

end DmxUart

namespace ArtnetManager

/-- Statistics fields of `ArtnetManager` (artnet_manager.h). -/
structure ArtnetStats where
  frameCounter : Nat
  lastFrameTime : Nat
  framesPerSecond : ℚ
deriving DecidableEq, Repr

/-- `ArtnetManager::updateStatistics` (artnet_manager.cpp lines 78-101),
exact over `ℚ`: recomputes `framesPerSecond = 1000 * frameCounter / elapsed`
and resets the counter and time reference only once more than 1000 ms have
elapsed and more than 100 frames were counted; otherwise it leaves the state
(including the cached rate) untouched. -/
def updateStatistics (st : ArtnetStats) (now : Nat) : ArtnetStats :=
  let elapsed := now - st.lastFrameTime
  if 1000 < elapsed ∧ 100 < st.frameCounter then
    { frameCounter := 0
      lastFrameTime := now
      framesPerSecond := 1000 * (st.frameCounter : ℚ) / (elapsed : ℚ) }
  else
    st

/-- `ArtnetManager::getFramesPerSecond`: returns the cached rate. -/
def getFramesPerSecond (st : ArtnetStats) : ℚ :=
  st.framesPerSecond

end ArtnetManager

namespace Main

/-- `DMX_CHANNELS` (main.cpp line 69). -/
def DMX_CHANNELS : Nat := 512

/-- `DMX_FRAME_PERIOD` (main.cpp line 369): milliseconds between DMX frames. -/
def DMX_FRAME_PERIOD : Nat := 23

/-- The Arduino `constrain(amt, low, high)` macro on unsigned integers. -/
def constrain (x lo hi : Nat) : Nat :=
  if x < lo then lo else if hi < x then hi else x

/-- The global mutable state of main.cpp touched by the Art-Net callback and
the DMX scheduler: the two 512-byte channel buffers (as byte functions), the
ready flag, the packet-arrival timestamp, the scheduler's `lastDmxSend`
static, and the Art-Net statistics. -/
structure BridgeState where
  dmxDataFront : Nat → Nat
  dmxDataBack : Nat → Nat
  dmxBufferReady : Bool
  lastPacketReceived : Nat
  lastDmxSend : Nat
  artnetStats : ArtnetManager.ArtnetStats

/-- State right after `setup()` (main.cpp lines 200-319): both buffers
zero-filled, `dmxBufferReady` still at its initializer `false` (line 82),
timestamps zero, statistics counters zero. -/
def initialState : BridgeState :=
  { dmxDataFront := fun _ => 0
    dmxDataBack := fun _ => 0
    dmxBufferReady := false
    lastPacketReceived := 0
    lastDmxSend := 0
    artnetStats := { frameCounter := 0, lastFrameTime := 0, framesPerSecond := 0 } }

/-- `onDmxPacket` (main.cpp lines 93-161). Both branches record the arrival
time and update the Art-Net statistics; only a frame whose universe matches
the configured one writes the front buffer (`memset` to 0 over all
`DMX_CHANNELS` bytes, then `memcpy` of `min(length, config.channels)` bytes),
swaps the front/back pointers and raises `dmxBufferReady`. A non-matching
frame at most emits diagnostics. The `sequence` argument is only ever
printed. -/
def onDmxPacket (cfgUniverse cfgChannels : Nat) (st : BridgeState)
    (now univ length sequence : Nat) (data : Nat → Nat) : BridgeState :=
  let st := { st with
    lastPacketReceived := now
    artnetStats := ArtnetManager.updateStatistics st.artnetStats now }
  if univ = cfgUniverse then
    let channelsToProcess := min length cfgChannels
    let newFront : Nat → Nat := fun i => if i < channelsToProcess then data i else 0
    { st with
      dmxDataFront := st.dmxDataBack
      dmxDataBack := newFront
      dmxBufferReady := true }
  else
    st

/-- One invocation of the encoder by the scheduler: the local transmission
buffer contents and the `length` / `maxChannels` arguments of the
`dmxOutput->sendDmxData` call. -/
structure SendCall where
  data : Nat → Nat
  length : Nat
  maxChannels : Nat

/-- The DMX branch of `loop()` (main.cpp lines 378-389) for one pass with
`millis() = currentMillis`: if the frame period has elapsed, refresh
`lastDmxSend`, zero-fill a local 512-byte buffer, copy
`constrain(config.channels, 1, DMX_CHANNELS)` bytes of the back buffer into
it and emit the send call; otherwise do nothing. Note that the branch never
consults `dmxBufferReady`. -/
def dmxTick (st : BridgeState) (cfgChannels currentMillis : Nat) :
    BridgeState × Option SendCall :=
  if DMX_FRAME_PERIOD ≤ currentMillis - st.lastDmxSend then
    let safeChannels := constrain cfgChannels 1 DMX_CHANNELS
    let localBuffer : Nat → Nat := fun i => if i < safeChannels then st.dmxDataBack i else 0
    ({ st with lastDmxSend := currentMillis },
     some { data := localBuffer, length := safeChannels, maxChannels := safeChannels })
  else
    (st, none)

end Main

namespace DmxI2s

/-- The low byte of a word formed as `(hi <<< 8) ||| lo` is `lo` whenever
`lo` fits in a byte. -/
theorem lowByte_or_shiftLeft (hi lo : Nat) (hlo : lo < 256) :
    ((hi <<< 8) ||| lo) % 256 = lo := by
  have h256 : (256 : Nat) = 2 ^ 8 := by norm_num
  apply Nat.eq_of_testBit_eq
  intro j
  rw [h256, Nat.testBit_mod_two_pow, Nat.testBit_or, Nat.testBit_shiftLeft]
  by_cases hj : j < 8
  · have h8 : ¬ (j ≥ 8) := by omega
    simp [hj, h8]
  · have hlo2 : lo.testBit j = false := by
      refine Nat.testBit_lt_two_pow (lt_of_lt_of_le hlo ?_)
      rw [h256]
      exact Nat.pow_le_pow_right (by norm_num) (by omega)
    simp [hj, hlo2]

/-- Word count of the assembled transmission buffer. -/
theorem i2sPacketBuffer_length (s : Bool) (d : Nat → Nat) (length maxChannels : Nat) :
    (i2sPacketBuffer s d length maxChannels).length =
      mbbSize s + sfbSize s + 1 + min length maxChannels + 1 := by
  simp [i2sPacketBuffer, dmxBytes]
  omega

/-- The word at offset `mbbSize + sfbSize + 1 + i` of the transmission buffer
is the word at index `i` of the `dmx_bytes` area. -/
theorem i2sPacketBuffer_getD_data (s : Bool) (d : Nat → Nat) (length maxChannels i : Nat) :
    (i2sPacketBuffer s d length maxChannels).getD (mbbSize s + sfbSize s + 1 + i) 0 =
      (dmxBytes d (min length maxChannels)).getD i 0 := by
  have hbuf : i2sPacketBuffer s d length maxChannels =
      (List.replicate (mbbSize s) 0xFFFF ++ List.replicate (sfbSize s) 0x0000 ++
        [mark_after_break]) ++ dmxBytes d (min length maxChannels) := by
    simp [i2sPacketBuffer, List.append_assoc]
  have hlen : (List.replicate (mbbSize s) 0xFFFF ++ List.replicate (sfbSize s) 0x0000 ++
      [mark_after_break]).length = mbbSize s + sfbSize s + 1 := by
    simp
    omega
  rw [hbuf, List.getD_eq_getElem?_getD, List.getElem?_append_right (by omega),
    hlen, List.getD_eq_getElem?_getD]
  congr 2
  omega

/-- The word at index `i` of the `dmx_bytes` area has low byte `0xFF` exactly
at the final channel word and `0xFE` everywhere else, for any nonempty
channel range. -/
theorem dmxBytes_getD_lowByte (d : Nat → Nat) (n i : Nat) (h1 : 1 ≤ n) (hi : i < n + 1) :
    (dmxBytes d n).getD i 0 % 256 = if i = n then 0xFF else 0xFE := by
  match i with
  | 0 =>
    have : (0 : Nat) ≠ n := by omega
    simp [dmxBytes, this]
  | j + 1 =>
    have hj : j < n := by omega
    have hmap : ((List.range n).map (dmxWord d n)).getD j 0 = dmxWord d n j := by
      rw [List.getD_eq_getElem?_getD, List.getElem?_map, List.getElem?_range hj]
      rfl
    simp only [dmxBytes, List.getD_cons_succ, hmap, dmxWord]
    by_cases hlast : j = n - 1
    · have hjn : j + 1 = n := by omega
      rw [if_pos hlast, if_pos hjn]
      exact lowByte_or_shiftLeft _ _ (by norm_num)
    · have hjn : ¬ (j + 1 = n) := by omega
      rw [if_neg hlast, if_neg hjn]
      exact lowByte_or_shiftLeft _ _ (by norm_num)

end DmxI2s

/-- Claim C1: for every channel count `n` in `[1, 512]` and every channel
array, the I2S packet built by `DmxI2s::sendDmxData` has exactly
`mbbSize + sfbSize + 1 + n + 1` sixteen-bit words, and among the `n + 1` data
words (start code plus `n` channel words, located right after the
mark-after-break word) the final channel word has low byte `0xFF` while every
other data word has low byte `0xFE`. -/
theorem C1_i2s_packet_shape (s : Bool) (st : DmxI2s.I2sState) (d : Nat → Nat)
    (now n : Nat) (h1 : 1 ≤ n) (h2 : n ≤ 512) :
    (DmxI2s.sendCore s st d n n now).buffer.length =
      DmxI2s.mbbSize s + DmxI2s.sfbSize s + 1 + n + 1 ∧
    ∀ i, i < n + 1 →
      (DmxI2s.sendCore s st d n n now).buffer.getD
          (DmxI2s.mbbSize s + DmxI2s.sfbSize s + 1 + i) 0 % 256 =
        if i = n then 0xFF else 0xFE := by
  have hb : (DmxI2s.sendCore s st d n n now).buffer = DmxI2s.i2sPacketBuffer s d n n := rfl
  constructor
  · rw [hb, DmxI2s.i2sPacketBuffer_length]
    omega
  · intro i hi
    rw [hb, DmxI2s.i2sPacketBuffer_getD_data]
    rw [Nat.min_self] at *
    exact DmxI2s.dmxBytes_getD_lowByte d n i h1 hi

/-- Witness for C1 at `s = false`, the all-zero channel array, `n = 1`. -/
theorem C1_i2s_packet_shape_witness :
    ((1 ≤ 1 ∧ 1 ≤ 512) ∧
      (DmxI2s.sendCore false ⟨none, 0, 0⟩ (fun _ => 0) 1 1 0).buffer.length =
        DmxI2s.mbbSize false + DmxI2s.sfbSize false + 1 + 1 + 1 ∧
      ∀ i, i < 1 + 1 →
        (DmxI2s.sendCore false ⟨none, 0, 0⟩ (fun _ => 0) 1 1 0).buffer.getD
            (DmxI2s.mbbSize false + DmxI2s.sfbSize false + 1 + i) 0 % 256 =
          if i = 1 then 0xFF else 0xFE) :=
  ⟨⟨le_refl 1, by norm_num⟩,
   C1_i2s_packet_shape false ⟨none, 0, 0⟩ (fun _ => 0) 0 1 (le_refl 1) (by norm_num)⟩

/-- Claim C4: for every byte, applying `flipByte` twice yields the byte back,
`flipByte` agrees with the reference bit-reversal permutation on all 256
bytes, and in particular `flipByte 0b00000001 = 0b10000000`. -/
theorem C4_flipByte_involution :
    (∀ c : Fin 256, DmxI2s.flipByte (DmxI2s.flipByte c.val) = c.val) ∧
    (∀ c : Fin 256, DmxI2s.flipByte c.val = DmxI2s.bitRev8 c.val) ∧
    DmxI2s.flipByte 0b00000001 = 0b10000000 := by
  refine ⟨?_, ?_, ?_⟩ <;> decide

/-- Claim C2: whenever the 23 ms frame period has elapsed, the scheduler
branch of `loop()` emits a send call — for every state, in particular
regardless of `dmxBufferReady` — whose channel count is
`constrain(config.channels, 1, 512)`, whose buffer is the back buffer on the
clamped range and zero beyond it, and whose `length` and `maxChannels`
arguments both equal the clamped count. -/
theorem C2_scheduler_always_sends (st : Main.BridgeState) (ch cm : Nat)
    (h : Main.DMX_FRAME_PERIOD ≤ cm - st.lastDmxSend) :
    ∃ call, (Main.dmxTick st ch cm).2 = some call ∧
      call.length = Main.constrain ch 1 Main.DMX_CHANNELS ∧
      call.maxChannels = call.length ∧
      1 ≤ call.length ∧ call.length ≤ 512 ∧
      (∀ i, i < call.length → call.data i = st.dmxDataBack i) ∧
      (∀ i, call.length ≤ i → call.data i = 0) ∧
      (∀ b, (Main.dmxTick { st with dmxBufferReady := b } ch cm).2 =
        (Main.dmxTick st ch cm).2) := by
  have hc1 : 1 ≤ Main.constrain ch 1 Main.DMX_CHANNELS := by
    unfold Main.constrain Main.DMX_CHANNELS
    split_ifs <;> omega
  have hc2 : Main.constrain ch 1 Main.DMX_CHANNELS ≤ 512 := by
    unfold Main.constrain Main.DMX_CHANNELS
    split_ifs <;> omega
  refine ⟨{ data := fun i => if i < Main.constrain ch 1 Main.DMX_CHANNELS
                then st.dmxDataBack i else 0
            length := Main.constrain ch 1 Main.DMX_CHANNELS
            maxChannels := Main.constrain ch 1 Main.DMX_CHANNELS },
    ?_, rfl, rfl, hc1, hc2, ?_, ?_, ?_⟩
  · simp only [Main.dmxTick]
    rw [if_pos h]
  · intro i hi
    simp only [if_pos hi]
  · intro i hi
    simp only [if_neg (Nat.not_lt.mpr hi)]
  · intro b
    simp [Main.dmxTick, h]

/-- Witness for C2 at the post-setup state, `config.channels = 100`,
`millis() = 23`. -/
theorem C2_scheduler_always_sends_witness :
    (Main.DMX_FRAME_PERIOD ≤ 23 - Main.initialState.lastDmxSend) ∧
    (∃ call, (Main.dmxTick Main.initialState 100 23).2 = some call ∧
      call.length = Main.constrain 100 1 Main.DMX_CHANNELS ∧
      call.maxChannels = call.length ∧
      1 ≤ call.length ∧ call.length ≤ 512 ∧
      (∀ i, i < call.length → call.data i = Main.initialState.dmxDataBack i) ∧
      (∀ i, call.length ≤ i → call.data i = 0) ∧
      (∀ b, (Main.dmxTick { Main.initialState with dmxBufferReady := b } 100 23).2 =
        (Main.dmxTick Main.initialState 100 23).2)) :=
  ⟨by decide, C2_scheduler_always_sends Main.initialState 100 23 (by decide)⟩

/-- Claim C3: a matching-universe frame of length `n ≤ config.channels`
raises the ready flag, hands the old back buffer to the receive side, and
makes the new back buffer (the one the next scheduled send reads) hold the
frame data zero-padded beyond index `n`. -/
theorem C3_buffer_write_roundtrip (cfgU cfgC : Nat) (st : Main.BridgeState)
    (now n seq : Nat) (d : Nat → Nat) (h : n ≤ cfgC) :
    (Main.onDmxPacket cfgU cfgC st now cfgU n seq d).dmxBufferReady = true ∧
    (Main.onDmxPacket cfgU cfgC st now cfgU n seq d).dmxDataFront = st.dmxDataBack ∧
    (∀ i, i < n → (Main.onDmxPacket cfgU cfgC st now cfgU n seq d).dmxDataBack i = d i) ∧
    (∀ i, n ≤ i → (Main.onDmxPacket cfgU cfgC st now cfgU n seq d).dmxDataBack i = 0) := by
  have hmin : min n cfgC = n := Nat.min_eq_left h
  refine ⟨by simp [Main.onDmxPacket], by simp [Main.onDmxPacket], ?_, ?_⟩
  · intro i hi
    simp [Main.onDmxPacket, hmin, hi]
  · intro i hi
    simp [Main.onDmxPacket, hmin, Nat.not_lt.mpr hi]

/-- Witness for C3: universe 1, 512 configured channels, a 3-byte frame. -/
theorem C3_buffer_write_roundtrip_witness :
    ((3 : Nat) ≤ 512) ∧
    ((Main.onDmxPacket 1 512 Main.initialState 0 1 3 0 (fun i => i + 10)).dmxBufferReady = true ∧
     (Main.onDmxPacket 1 512 Main.initialState 0 1 3 0 (fun i => i + 10)).dmxDataFront =
       Main.initialState.dmxDataBack ∧
     (∀ i, i < 3 →
       (Main.onDmxPacket 1 512 Main.initialState 0 1 3 0 (fun i => i + 10)).dmxDataBack i = i + 10) ∧
     (∀ i, 3 ≤ i →
       (Main.onDmxPacket 1 512 Main.initialState 0 1 3 0 (fun i => i + 10)).dmxDataBack i = 0)) :=
  ⟨by norm_num,
   C3_buffer_write_roundtrip 1 512 Main.initialState 0 3 0 (fun i => i + 10) (by norm_num)⟩

/-- Claim C8: a frame whose universe differs from the configured one leaves
the front buffer, the back buffer and the ready flag untouched. -/
theorem C8_universe_filter (cfgU cfgC : Nat) (st : Main.BridgeState)
    (now u n seq : Nat) (d : Nat → Nat) (h : u ≠ cfgU) :
    (Main.onDmxPacket cfgU cfgC st now u n seq d).dmxDataFront = st.dmxDataFront ∧
    (Main.onDmxPacket cfgU cfgC st now u n seq d).dmxDataBack = st.dmxDataBack ∧
    (Main.onDmxPacket cfgU cfgC st now u n seq d).dmxBufferReady = st.dmxBufferReady := by
  refine ⟨?_, ?_, ?_⟩ <;> simp [Main.onDmxPacket, h]

/-- Witness for C8: configured universe 1 receiving a frame for universe 2. -/
theorem C8_universe_filter_witness :
    ((2 : Nat) ≠ 1) ∧
    ((Main.onDmxPacket 1 512 Main.initialState 0 2 3 0 (fun i => i + 10)).dmxDataFront =
       Main.initialState.dmxDataFront ∧
     (Main.onDmxPacket 1 512 Main.initialState 0 2 3 0 (fun i => i + 10)).dmxDataBack =
       Main.initialState.dmxDataBack ∧
     (Main.onDmxPacket 1 512 Main.initialState 0 2 3 0 (fun i => i + 10)).dmxBufferReady =
       Main.initialState.dmxBufferReady) :=
  ⟨by norm_num,
   C8_universe_filter 1 512 Main.initialState 0 2 3 0 (fun i => i + 10) (by norm_num)⟩

/-- Counterexample to claim C6 as stated: a scheduler tick in which the
frame period has elapsed — a tick that acts on the DMX output state, reading
the back buffer and firing a send — does NOT consume the ready flag: with
`dmxBufferReady = true` before the tick, the flag is still `true` after it
(the claim says it would be cleared). -/
theorem C6_counterexample :
    ((Main.dmxTick { Main.initialState with dmxBufferReady := true } 100 23).2).isSome = true ∧
    (Main.dmxTick { Main.initialState with dmxBufferReady := true } 100 23).1.dmxBufferReady
      = true := by
  exact ⟨rfl, rfl⟩

/-- Claim C6 as amended: the ready flag starts cleared at startup, but the
scheduler never consumes it — every tick (sending or not) leaves
`dmxBufferReady` exactly as it was, and only a matching-universe packet
changes it, setting it to `true` (it is never cleared again). -/
theorem C6_flag_unconsumed :
    Main.initialState.dmxBufferReady = false ∧
    (∀ st ch cm, ((Main.dmxTick st ch cm).1).dmxBufferReady = st.dmxBufferReady) ∧
    (∀ cfgU cfgC st now n seq d,
      (Main.onDmxPacket cfgU cfgC st now cfgU n seq d).dmxBufferReady = true) := by
  refine ⟨rfl, ?_, ?_⟩
  · intro st ch cm
    by_cases h : Main.DMX_FRAME_PERIOD ≤ cm - st.lastDmxSend
    · simp [Main.dmxTick, h]
    · simp [Main.dmxTick, h]
  · intro cfgU cfgC st now n seq d
    simp [Main.onDmxPacket]

/-- Counterexample to claim C5 as stated: `DmxI2s::sendDmxData` contains no
validation, so a send with `length = 0` (valid data pointer, positive
`maxChannels`) is not a no-op — the packet counter advances from 0 to 1 and
`totalSize / 2 = 2` I2S frames (4 sixteen-bit words: break, MAB, start code)
are still handed to the peripheral. -/
theorem C5_counterexample :
    (DmxI2s.sendDmxData false ⟨none, 0, 0⟩ (some fun _ => 0) 0 512 5).map
        (fun r => (r.state.packetCounter, r.i2sFrames)) = some (1, 2) ∧
    (1 : Nat) ≠ 0 ∧ (2 : Nat) ≠ 0 := by
  refine ⟨?_, by norm_num, by norm_num⟩
  rfl

/-- Claim C5 as amended: `DmxUart::sendDmxData` with a null data pointer, or
zero length, or zero maxChannels, is a silent no-op (state unchanged, no byte
written, no dereference). `DmxI2s::sendDmxData` performs no such validation:
whenever `min length maxChannels = 0` it still transmits a
break/MAB/start-code packet and increments its packet counter (the null
pointer is not dereferenced only because the channel loop runs zero times),
and with a null pointer and `min length maxChannels > 0` it dereferences the
null pointer. -/
theorem C5_send_guards :
    (∀ (st : DmxUart.UartState) (data : Option (Nat → Nat)) (l m now : Nat),
      data = none ∨ l = 0 ∨ m = 0 → DmxUart.sendDmxData st data l m now = (st, [])) ∧
    (∀ (s : Bool) (st : DmxI2s.I2sState) (l m now : Nat), min l m = 0 →
      ∃ r, DmxI2s.sendDmxData s st none l m now = some r ∧
        r.state.packetCounter = st.packetCounter + 1 ∧ 0 < r.i2sFrames) ∧
    (∀ (s : Bool) (st : DmxI2s.I2sState) (l m now : Nat), 0 < min l m →
      DmxI2s.sendDmxData s st none l m now = none) := by
  refine ⟨?_, ?_, ?_⟩
  · intro st data l m now h
    match data with
    | none => rfl
    | some d =>
      have hz : l = 0 ∨ m = 0 := by
        rcases h with h | h | h
        · exact absurd h (by simp)
        · exact Or.inl h
        · exact Or.inr h
      simp [DmxUart.sendDmxData, hz]
  · intro s st l m now h
    refine ⟨DmxI2s.sendCore s st (fun _ => 0) l m now, ?_, rfl, ?_⟩
    · simp [DmxI2s.sendDmxData, h]
    · show 0 < (DmxI2s.mbbSize s + DmxI2s.sfbSize s + 1 + min l m + 1) / 2
      rw [h]
      cases s <;> decide
  · intro s st l m now h
    have hne : ¬ (min l m = 0) := by omega
    simp [DmxI2s.sendDmxData, hne]

/-- Witness for the amended C5. -/
theorem C5_send_guards_witness :
    DmxUart.sendDmxData ⟨3, 4⟩ none 5 6 7 = (⟨3, 4⟩, []) ∧
    (∃ r, DmxI2s.sendDmxData false ⟨none, 0, 0⟩ none 0 7 5 = some r ∧
      r.state.packetCounter = 0 + 1 ∧ 0 < r.i2sFrames) ∧
    DmxI2s.sendDmxData false ⟨none, 0, 0⟩ none 2 3 5 = none :=
  ⟨C5_send_guards.1 ⟨3, 4⟩ none 5 6 7 (Or.inl rfl),
   C5_send_guards.2.1 false ⟨none, 0, 0⟩ 0 7 5 (by decide),
   C5_send_guards.2.2 false ⟨none, 0, 0⟩ 2 3 5 (by decide)⟩

/-- Claim C7: with exactly 150 recorded events and 1200 ms elapsed since the
time reference, a rate read computes `1000 * 150 / 1200 = 125` and resets
the counter and the time reference, on both the receive side
(`ArtnetManager::updateStatistics`) and the send side
(`DmxUart::getPacketsPerSecond`); an immediately subsequent read with no new
events returns the cached 125 on the receive side and 0 on the send side,
in both cases without resetting anything. -/
theorem C7_statistics_rate (t0 : Nat) (prev : ℚ) :
    ArtnetManager.updateStatistics ⟨150, t0, prev⟩ (t0 + 1200) = ⟨0, t0 + 1200, 125⟩ ∧
    ArtnetManager.getFramesPerSecond
      (ArtnetManager.updateStatistics ⟨150, t0, prev⟩ (t0 + 1200)) = 125 ∧
    ArtnetManager.updateStatistics
        (ArtnetManager.updateStatistics ⟨150, t0, prev⟩ (t0 + 1200)) (t0 + 1200) =
      ArtnetManager.updateStatistics ⟨150, t0, prev⟩ (t0 + 1200) ∧
    DmxUart.getPacketsPerSecond ⟨150, t0⟩ (t0 + 1200) = (⟨0, t0 + 1200⟩, 125) ∧
    DmxUart.getPacketsPerSecond
        (DmxUart.getPacketsPerSecond ⟨150, t0⟩ (t0 + 1200)).1 (t0 + 1200) =
      ((DmxUart.getPacketsPerSecond ⟨150, t0⟩ (t0 + 1200)).1, 0) := by
  have helapsed : t0 + 1200 - t0 = 1200 := by omega
  have hfirst : ArtnetManager.updateStatistics ⟨150, t0, prev⟩ (t0 + 1200) =
      ⟨0, t0 + 1200, 125⟩ := by
    unfold ArtnetManager.updateStatistics
    rw [helapsed]
    norm_num
  have huart : DmxUart.getPacketsPerSecond ⟨150, t0⟩ (t0 + 1200) = (⟨0, t0 + 1200⟩, 125) := by
    unfold DmxUart.getPacketsPerSecond
    rw [helapsed]
    norm_num
  have hsecond : ArtnetManager.updateStatistics ⟨0, t0 + 1200, 125⟩ (t0 + 1200) =
      ⟨0, t0 + 1200, 125⟩ := by
    unfold ArtnetManager.updateStatistics
    rw [Nat.sub_self]
    norm_num
  have huart2 : DmxUart.getPacketsPerSecond ⟨0, t0 + 1200⟩ (t0 + 1200) = (⟨0, t0 + 1200⟩, 0) := by
    unfold DmxUart.getPacketsPerSecond
    norm_num
  refine ⟨hfirst, ?_, ?_, huart, ?_⟩
  · rw [hfirst]
    rfl
  · rw [hfirst, hsecond]
  · rw [huart]
    exact huart2

/-- Counterexample to claim C9 as stated: at the default timing
(`mbbSize = sfbSize = 1`) with one channel, `totalSize = 5` is odd (indeed
only `2 * 2 = 4` of the 5 words are streamed), yet
`mbbSize + sfbSize + channelsToSend = 3` is odd, not even — the claimed
equivalence "totalSize odd iff mbbSize + sfbSize + channelsToSend even" is
false. -/
theorem C9_counterexample :
    (DmxI2s.sendCore false ⟨none, 0, 0⟩ (fun _ => 0) 1 1 0).i2sFrames = 2 ∧
    (DmxI2s.mbbSize false + DmxI2s.sfbSize false + 1 + 1 + 1) % 2 = 1 ∧
    ¬ ((DmxI2s.mbbSize false + DmxI2s.sfbSize false + 1) % 2 = 0) := by
  refine ⟨rfl, by decide, by decide⟩

/-- Claim C9 as amended: the peripheral is handed `totalSize / 2` I2S frames,
i.e. `2 * (totalSize / 2)` sixteen-bit words where
`totalSize = mbbSize + sfbSize + 1 + channelsToSend + 1` is the length of the
constructed buffer; hence whenever `totalSize` is odd — equivalently, when
`mbbSize + sfbSize + channelsToSend` is odd — the streamed word count is
`totalSize - 1` and the buffer's final word (for a nonempty channel range,
the last channel's framing word) is excluded. -/
theorem C9_streamed_words (s : Bool) (st : DmxI2s.I2sState) (d : Nat → Nat) (l m now : Nat) :
    (DmxI2s.sendCore s st d l m now).i2sFrames =
      (DmxI2s.mbbSize s + DmxI2s.sfbSize s + 1 + min l m + 1) / 2 ∧
    (DmxI2s.sendCore s st d l m now).buffer.length =
      DmxI2s.mbbSize s + DmxI2s.sfbSize s + 1 + min l m + 1 ∧
    ((DmxI2s.mbbSize s + DmxI2s.sfbSize s + 1 + min l m + 1) % 2 = 1 →
      2 * (DmxI2s.sendCore s st d l m now).i2sFrames =
        (DmxI2s.mbbSize s + DmxI2s.sfbSize s + 1 + min l m + 1) - 1) ∧
    ((DmxI2s.mbbSize s + DmxI2s.sfbSize s + 1 + min l m + 1) % 2 = 1 ↔
      (DmxI2s.mbbSize s + DmxI2s.sfbSize s + min l m) % 2 = 1) := by
  have hf : (DmxI2s.sendCore s st d l m now).i2sFrames =
      (DmxI2s.mbbSize s + DmxI2s.sfbSize s + 1 + min l m + 1) / 2 := rfl
  refine ⟨hf, DmxI2s.i2sPacketBuffer_length s d l m, ?_, by omega⟩
  intro hodd
  omega

/-- Witness for the amended C9 at `s = false`, one channel. -/
theorem C9_streamed_words_witness :
    (DmxI2s.sendCore false ⟨none, 3, 4⟩ (fun _ => 9) 1 1 0).i2sFrames =
      (DmxI2s.mbbSize false + DmxI2s.sfbSize false + 1 + min 1 1 + 1) / 2 ∧
    (DmxI2s.sendCore false ⟨none, 3, 4⟩ (fun _ => 9) 1 1 0).buffer.length =
      DmxI2s.mbbSize false + DmxI2s.sfbSize false + 1 + min 1 1 + 1 ∧
    ((DmxI2s.mbbSize false + DmxI2s.sfbSize false + 1 + min 1 1 + 1) % 2 = 1 →
      2 * (DmxI2s.sendCore false ⟨none, 3, 4⟩ (fun _ => 9) 1 1 0).i2sFrames =
        (DmxI2s.mbbSize false + DmxI2s.sfbSize false + 1 + min 1 1 + 1) - 1) ∧
    ((DmxI2s.mbbSize false + DmxI2s.sfbSize false + 1 + min 1 1 + 1) % 2 = 1 ↔
      (DmxI2s.mbbSize false + DmxI2s.sfbSize false + min 1 1) % 2 = 1) :=
  C9_streamed_words false ⟨none, 3, 4⟩ (fun _ => 9) 1 1 0

/-- Claim C10: `packet.dmx_bytes` is allocated only when the pointer is still
null, with `channelsToSend + 1` elements as of that first send, and later
sends never reallocate it; a later send whose `channelsToSend` is at most the
first one's keeps every write index (the largest being `channelsToSend`)
inside the allocation, while a strictly larger `channelsToSend` drives the
write index to or past the allocated size. -/
theorem C10_dmx_bytes_alloc (s : Bool) (st0 st1 : DmxI2s.I2sState) (d0 d d1 : Nat → Nat)
    (l0 m0 l m l1 m1 t0 t t1 a : Nat)
    (h0 : st0.dmxBytesAlloc = none) (h1 : st1.dmxBytesAlloc = some a) :
    (DmxI2s.sendCore s st0 d0 l0 m0 t0).state.dmxBytesAlloc = some (min l0 m0 + 1) ∧
    (DmxI2s.sendCore s st1 d1 l1 m1 t1).state.dmxBytesAlloc = some a ∧
    (min l m ≤ min l0 m0 →
      (DmxI2s.sendCore s (DmxI2s.sendCore s st0 d0 l0 m0 t0).state d l m t).maxWriteIndex <
        min l0 m0 + 1) ∧
    (min l0 m0 < min l m →
      min l0 m0 + 1 ≤
        (DmxI2s.sendCore s (DmxI2s.sendCore s st0 d0 l0 m0 t0).state d l m t).maxWriteIndex) := by
  have hmax : (DmxI2s.sendCore s (DmxI2s.sendCore s st0 d0 l0 m0 t0).state d l m t).maxWriteIndex
      = min l m := rfl
  refine ⟨by simp [DmxI2s.sendCore, h0], by simp [DmxI2s.sendCore, h1], ?_, ?_⟩
  · intro hle
    rw [hmax]
    omega
  · intro hlt
    rw [hmax]
    omega

/-- Witness for C10: first send with 3 channels, second with 2. -/
theorem C10_dmx_bytes_alloc_witness :
    ((⟨none, 0, 0⟩ : DmxI2s.I2sState).dmxBytesAlloc = none ∧
     (⟨some 9, 0, 0⟩ : DmxI2s.I2sState).dmxBytesAlloc = some 9) ∧
    ((DmxI2s.sendCore false ⟨none, 0, 0⟩ (fun _ => 1) 3 3 0).state.dmxBytesAlloc =
       some (min 3 3 + 1) ∧
     (DmxI2s.sendCore false ⟨some 9, 0, 0⟩ (fun _ => 2) 7 7 0).state.dmxBytesAlloc = some 9 ∧
     (min 2 2 ≤ min 3 3 →
       (DmxI2s.sendCore false
         (DmxI2s.sendCore false ⟨none, 0, 0⟩ (fun _ => 1) 3 3 0).state
         (fun _ => 4) 2 2 0).maxWriteIndex < min 3 3 + 1) ∧
     (min 3 3 < min 2 2 →
       min 3 3 + 1 ≤
         (DmxI2s.sendCore false
           (DmxI2s.sendCore false ⟨none, 0, 0⟩ (fun _ => 1) 3 3 0).state
           (fun _ => 4) 2 2 0).maxWriteIndex)) :=
  ⟨⟨rfl, rfl⟩,
   C10_dmx_bytes_alloc false ⟨none, 0, 0⟩ ⟨some 9, 0, 0⟩ (fun _ => 1) (fun _ => 4) (fun _ => 2)
     3 3 2 2 7 7 0 0 0 9 rfl rfl⟩
